import Mathlib

/-!
Verification of the ITI Student Affairs System's shared record-management
engine (`js/modules/DataTable.js`) and its per-entity adapters
(`Student.js`, `Course.js`, `Employee.js`, `Instructor.js`).

The JavaScript is shallowly embedded: the mutable fields of a `DataTable`
instance that drive querying become a `TableState` record, each event
handler becomes a step function, and the per-entity validators and
overridden `saveRecord` methods become pure functions from form data and
server outcomes to an explicit record of state changes and issued calls.
-/

namespace SAS

/-! ## Query state machine (DataTable.js)

`TableState` holds the fields of a `DataTable` set in the constructor
(lines 14-24 of DataTable.js): `currentPage`, `itemsPerPage`,
`totalItems`, `totalPages`, `searchQuery`, `sortColumn`, `sortOrder`.
-/

inductive SortOrder where
  | asc
  | desc
deriving DecidableEq

structure TableState where
  currentPage : Nat
  itemsPerPage : Nat
  totalItems : Nat
  totalPages : Nat
  searchQuery : String
  sortColumn : Option String
  sortOrder : SortOrder
deriving DecidableEq

/-- The constructor's initial state: `currentPage = 1`, `itemsPerPage = 10`,
`totalItems = 0`, `totalPages = 0`, empty search, no sort column,
order `asc` (DataTable.js lines 14-24). -/
def initState : TableState :=
  { currentPage := 1, itemsPerPage := 10, totalItems := 0, totalPages := 0,
    searchQuery := "", sortColumn := none, sortOrder := .asc }

/-- `Math.ceil(totalItems / itemsPerPage)` for natural operands with
`itemsPerPage ≥ 1` (DataTable.js line 133). -/
def jsCeilDiv (t p : Nat) : Nat := (t + p - 1) / p

/-- Events that mutate the query state:
* `searchInput q`    — the search box handler (lines 65-69);
* `pageSizeChange n` — the items-per-page handler (lines 72-76), `n` the
  parsed select value;
* `sortClick c`      — a sort-header click dispatching to `sortBy` (221-230);
* `prevClick` / `nextClick` — the pagination buttons dispatching to
  `previousPage` (249-254) and `nextPage` (259-264);
* `loadResult t`     — a `loadData` response arriving with server-reported
  total item count `t` (lines 128-133). -/
inductive TableEv where
  | searchInput (q : String)
  | pageSizeChange (n : Nat)
  | sortClick (c : String)
  | prevClick
  | nextClick
  | loadResult (t : Nat)

/-- One step of the query state machine, translated handler by handler. -/
def tableStep (s : TableState) : TableEv → TableState
  | .searchInput q => { s with searchQuery := q, currentPage := 1 }
  | .pageSizeChange n => { s with itemsPerPage := n, currentPage := 1 }
  | .sortClick c =>
      if s.sortColumn = some c then
        { s with sortOrder := if s.sortOrder = .asc then .desc else .asc }
      else
        { s with sortColumn := some c, sortOrder := .asc }
  | .prevClick =>
      if 1 < s.currentPage then { s with currentPage := s.currentPage - 1 } else s
  | .nextClick =>
      if s.currentPage < s.totalPages then { s with currentPage := s.currentPage + 1 } else s
  | .loadResult t =>
      { s with totalItems := t, totalPages := jsCeilDiv t s.itemsPerPage }

/-- Run a sequence of events from the constructor's initial state. -/
def runTable (evs : List TableEv) : TableState := evs.foldl tableStep initState

/-! ## Arithmetic facts about the page-count computation -/

theorem jsCeilDiv_eq_ceil (t p : Nat) (hp : 1 ≤ p) :
    jsCeilDiv t p = ⌈(t : ℚ) / (p : ℚ)⌉₊ := by
  rcases Nat.eq_zero_or_pos t with ht | ht
  · subst ht
    simp [jsCeilDiv, Nat.div_eq_of_lt (by omega : p - 1 < p)]
  · have hp0 : 0 < p := hp
    unfold jsCeilDiv
    set d := (t + p - 1) / p with hd
    have hdpos : 1 ≤ d := by
      rw [hd, Nat.le_div_iff_mul_le hp0]
      omega
    have hub : d * p ≤ t + p - 1 := by
      rw [hd]; exact Nat.div_mul_le_self _ _
    have hlb : t ≤ d * p := by
      by_contra hcon
      push_neg at hcon
      have h2 : d + 1 ≤ (t + p - 1) / p := by
        rw [Nat.le_div_iff_mul_le hp0]
        have h3 : (d + 1) * p = d * p + p := by ring
        omega
      omega
    have hpQ : (0 : ℚ) < (p : ℚ) := by exact_mod_cast hp0
    symm
    rw [Nat.ceil_eq_iff (by omega : d ≠ 0)]
    constructor
    · rw [lt_div_iff₀ hpQ]
      have h4 : (d - 1) * p < t := by
        have h5 : (d - 1) * p = d * p - p := by
          cases d with
          | zero => omega
          | succ k => simp [Nat.succ_mul]
        omega
      calc ((d - 1 : ℕ) : ℚ) * p = (((d - 1) * p : ℕ) : ℚ) := by push_cast; ring
        _ < (t : ℚ) := by exact_mod_cast h4
    · rw [div_le_iff₀ hpQ]
      calc (t : ℚ) ≤ ((d * p : ℕ) : ℚ) := by exact_mod_cast hlb
        _ = (d : ℚ) * p := by push_cast; ring

theorem jsCeilDiv_eq_zero_iff (t p : Nat) (hp : 1 ≤ p) :
    jsCeilDiv t p = 0 ↔ t = 0 := by
  unfold jsCeilDiv
  constructor
  · intro h
    by_contra ht
    have h1 : 1 ≤ (t + p - 1) / p := by
      rw [Nat.le_div_iff_mul_le (by omega : 0 < p)]
      omega
    omega
  · intro h
    subst h
    simp [Nat.div_eq_of_lt (by omega : p - 1 < p)]

/-- Every event handler keeps `currentPage` at least 1. -/
theorem currentPage_pos_step (s : TableState) (e : TableEv) (h : 1 ≤ s.currentPage) :
    1 ≤ (tableStep s e).currentPage := by
  cases e <;> simp only [tableStep] <;> (try split) <;> simp_all <;> omega

/-- `currentPage ≥ 1` is preserved along every event trace. -/
theorem currentPage_pos_foldl (evs : List TableEv) :
    ∀ s : TableState, 1 ≤ s.currentPage → 1 ≤ (evs.foldl tableStep s).currentPage := by
  induction evs with
  | nil => intro s h; exact h
  | cons e evs ih =>
      intro s h
      exact ih _ (currentPage_pos_step s e h)

/-! ## Claims about the query state machine -/

/-- C1 counterexample: from the initial state, load 50 items and advance to
page 3, then click the sort header of column `name`. The sort column does
change (from `none` to `some "name"`), yet the current page stays 3 — it is
not reset to 1 as the claim requires. -/
theorem sortClick_no_page_reset_cex :
    ¬ ((tableStep (runTable [.loadResult 50, .nextClick, .nextClick]) (.sortClick "name")).sortColumn
          = (runTable [.loadResult 50, .nextClick, .nextClick]).sortColumn
        ∨ (tableStep (runTable [.loadResult 50, .nextClick, .nextClick]) (.sortClick "name")).currentPage
          = 1) := by
  decide

/-- C1 (amended): a search-input change and an items-per-page change each
reset the current page to 1 before the next fetch; a sort-header click
(which changes `sortColumn`/`sortOrder`) leaves the current page unchanged —
`sortBy` performs no page reset. -/
theorem query_change_page_reset_c1 (s : TableState) (q : String) (n : Nat) (c : String) :
    (tableStep s (.searchInput q)).currentPage = 1
    ∧ (tableStep s (.pageSizeChange n)).currentPage = 1
    ∧ (tableStep s (.sortClick c)).currentPage = s.currentPage := by
  refine ⟨rfl, rfl, ?_⟩
  simp only [tableStep]
  split
  · rfl
  · rfl

/-- C3 counterexample: load a total of 20 items (2 pages at 10 per page),
advance to page 2, then a reload reports 0 total items. The resulting state
has `currentPage = 2` but `max 1 ⌈totalItems / pageSize⌉ = 1`, violating
the claimed invariant `page ≤ max(1, ceil(totalItems / pageSize))`. -/
theorem page_bound_invariant_cex :
    ¬ ((runTable [.loadResult 20, .nextClick, .loadResult 0]).currentPage ≤
        max 1 (jsCeilDiv (runTable [.loadResult 20, .nextClick, .loadResult 0]).totalItems
          (runTable [.loadResult 20, .nextClick, .loadResult 0]).itemsPerPage)) := by
  decide

/-- C3 (amended): (1) in every state reachable through the engine's own
operations, `1 ≤ page`; (2) the pagination controls themselves never drive
the page below 1 or above `max 1 totalPages`; (3) a data load preserves the
bound `page ≤ max(1, ceil(totalItems / pageSize))` exactly when the
reported total still covers the current page — `loadData` performs no
clamping, so a load reporting a smaller total can break the bound (see the
counterexample). -/
theorem page_bounds_c3 :
    (∀ evs : List TableEv, 1 ≤ (runTable evs).currentPage)
    ∧ (∀ s : TableState, 1 ≤ s.currentPage → s.currentPage ≤ max 1 s.totalPages →
        1 ≤ (tableStep s .prevClick).currentPage
        ∧ (tableStep s .prevClick).currentPage ≤ max 1 s.totalPages
        ∧ 1 ≤ (tableStep s .nextClick).currentPage
        ∧ (tableStep s .nextClick).currentPage ≤ max 1 s.totalPages)
    ∧ (∀ (s : TableState) (t : Nat),
        s.currentPage ≤ max 1 (jsCeilDiv t s.itemsPerPage) →
        (tableStep s (.loadResult t)).currentPage ≤
          max 1 (jsCeilDiv (tableStep s (.loadResult t)).totalItems
            (tableStep s (.loadResult t)).itemsPerPage)) := by
  refine ⟨?_, ?_, ?_⟩
  · intro evs
    exact currentPage_pos_foldl evs initState (by decide)
  · intro s h1 h2
    refine ⟨currentPage_pos_step s .prevClick h1, ?_, currentPage_pos_step s .nextClick h1, ?_⟩
    · simp only [tableStep]
      split <;> simp <;> omega
    · simp only [tableStep]
      split <;> simp <;> omega
  · intro s t h
    simpa [tableStep] using h

/-- C3 witness: all three parts instantiated — (1) the empty trace, (2) a
state on page 2 of 3, (3) the initial state receiving a load of 0 items. -/
theorem page_bounds_c3_witness :
    1 ≤ (runTable []).currentPage
    ∧ (1 ≤ (tableStep { initState with currentPage := 2, totalPages := 3 } .prevClick).currentPage
       ∧ (tableStep { initState with currentPage := 2, totalPages := 3 } .prevClick).currentPage
           ≤ max 1 ({ initState with currentPage := 2, totalPages := 3 } : TableState).totalPages
       ∧ 1 ≤ (tableStep { initState with currentPage := 2, totalPages := 3 } .nextClick).currentPage
       ∧ (tableStep { initState with currentPage := 2, totalPages := 3 } .nextClick).currentPage
           ≤ max 1 ({ initState with currentPage := 2, totalPages := 3 } : TableState).totalPages)
    ∧ (tableStep initState (.loadResult 0)).currentPage ≤
        max 1 (jsCeilDiv (tableStep initState (.loadResult 0)).totalItems
          (tableStep initState (.loadResult 0)).itemsPerPage) :=
  ⟨page_bounds_c3.1 [],
   page_bounds_c3.2.1 { initState with currentPage := 2, totalPages := 3 } (by decide) (by decide),
   page_bounds_c3.2.2 initState 0 (by decide)⟩

/-- C4: after a fetch reporting `t` total items, with `pageSize ≥ 1`, the
stored `totalPages` is exactly `Math.ceil(t / pageSize)`, that value equals
the mathematical ceiling `⌈t / pageSize⌉`, and `totalPages = 0` iff the
reported total is 0. -/
theorem totalPages_ceil_c4 (s : TableState) (t : Nat) (hp : 1 ≤ s.itemsPerPage) :
    (tableStep s (.loadResult t)).totalPages = jsCeilDiv t s.itemsPerPage
    ∧ jsCeilDiv t s.itemsPerPage = ⌈(t : ℚ) / (s.itemsPerPage : ℚ)⌉₊
    ∧ ((tableStep s (.loadResult t)).totalPages = 0 ↔ t = 0) :=
  ⟨rfl, jsCeilDiv_eq_ceil t s.itemsPerPage hp,
   by simpa [tableStep] using jsCeilDiv_eq_zero_iff t s.itemsPerPage hp⟩

/-- C4 witness: the initial state (page size 10) receiving a load of 25
items: `totalPages = ⌈25/10⌉ = 3 ≠ 0`. -/
theorem totalPages_ceil_c4_witness :
    (tableStep initState (.loadResult 25)).totalPages = jsCeilDiv 25 initState.itemsPerPage
    ∧ jsCeilDiv 25 initState.itemsPerPage = ⌈(25 : ℚ) / (initState.itemsPerPage : ℚ)⌉₊
    ∧ ((tableStep initState (.loadResult 25)).totalPages = 0 ↔ 25 = 0) :=
  totalPages_ceil_c4 initState 25 (by decide)

/-- C5: a sort-header click on a column different from the current sort
column (including when none is sorted) selects that column at order `asc`;
a click on the current sort column keeps the column and flips the order
between `asc` and `desc`. -/
theorem sortBy_toggle_c5 (s : TableState) (c : String) :
    (s.sortColumn ≠ some c →
      (tableStep s (.sortClick c)).sortColumn = some c
      ∧ (tableStep s (.sortClick c)).sortOrder = .asc)
    ∧ (s.sortColumn = some c →
      (tableStep s (.sortClick c)).sortColumn = s.sortColumn
      ∧ (s.sortOrder = .asc → (tableStep s (.sortClick c)).sortOrder = .desc)
      ∧ (s.sortOrder = .desc → (tableStep s (.sortClick c)).sortOrder = .asc)) := by
  constructor
  · intro h
    simp [tableStep, h]
  · intro h
    refine ⟨?_, ?_, ?_⟩
    · simp [tableStep, h]
    · intro ho
      simp [tableStep, h, ho]
    · intro ho
      simp [tableStep, h, ho]

/-- C5 witness: clicking `email` with no column sorted selects it ascending;
clicking `name` while `name` is sorted ascending flips to descending. -/
theorem sortBy_toggle_c5_witness :
    ((tableStep initState (.sortClick "email")).sortColumn = some "email"
     ∧ (tableStep initState (.sortClick "email")).sortOrder = .asc)
    ∧ ((tableStep { initState with sortColumn := some "name" } (.sortClick "name")).sortColumn
         = ({ initState with sortColumn := some "name" } : TableState).sortColumn
       ∧ (tableStep { initState with sortColumn := some "name" } (.sortClick "name")).sortOrder
         = .desc) :=
  ⟨(sortBy_toggle_c5 initState "email").1 (by decide),
   ⟨((sortBy_toggle_c5 { initState with sortColumn := some "name" } "name").2 rfl).1,
    ((sortBy_toggle_c5 { initState with sortColumn := some "name" } "name").2 rfl).2.1 rfl⟩⟩

/-! ## JavaScript string and number primitives

Models of the JavaScript built-ins the validators use. Form values are
UTF-16 strings; the inputs exercised here are ASCII, for which `String` /
`List Char` is an exact model. `parseFloat` is modelled over `ℚ` (exact
rationals) rather than binary floating point; every numeral compared
against the validators' bounds (0, 4, 1, 6) is exactly representable, so
the comparisons agree with IEEE doubles on all inputs considered.
Unmodelled corners, none of which the claims touch: `parseFloat`
exponents/`Infinity`, `parseInt` radix auto-detection (`0x…`), and
`toUpperCase` beyond ASCII. -/

def jsIsWs (c : Char) : Bool :=
  c = ' ' ∨ c = '\t' ∨ c = '\n' ∨ c = '\r' ∨ c = '\x0b' ∨ c = '\x0c'

/-- `String.prototype.trim`. -/
def jsTrim (s : String) : String :=
  ⟨((s.data.dropWhile jsIsWs).reverse.dropWhile jsIsWs).reverse⟩

def jsToUpperChar (c : Char) : Char :=
  if 'a' ≤ c ∧ c ≤ 'z' then Char.ofNat (c.toNat - 32) else c

/-- `String.prototype.toUpperCase` (ASCII range). -/
def jsToUpper (s : String) : String := ⟨s.data.map jsToUpperChar⟩

def isDigit09 (c : Char) : Bool := '0' ≤ c ∧ c ≤ '9'

def isUpperAZ (c : Char) : Bool := 'A' ≤ c ∧ c ≤ 'Z'

def digitsToNat (l : List Char) : Nat :=
  l.foldl (fun a c => a * 10 + (c.toNat - 48)) 0

/-- An exact decimal `num / 10^exp10`, the form of every value `parseFloat`
produces from a digits-dot-digits numeral. Kept unreduced (no gcd) so that
all validator arithmetic stays kernel-computable; `toRat` gives its value. -/
structure DecNum where
  num : Int
  exp10 : Nat
deriving DecidableEq

def DecNum.toRat (x : DecNum) : ℚ := (x.num : ℚ) / (10 : ℚ) ^ x.exp10

/-- `x < b` for an integer bound `b`, computed without rational
normalization; `DecNum.ltInt_iff` shows it agrees with `x.toRat < b`. -/
def DecNum.ltInt (x : DecNum) (b : Int) : Bool :=
  decide (x.num < b * (10 : Int) ^ x.exp10)

/-- `x > b` for an integer bound `b`; see `DecNum.gtInt_iff`. -/
def DecNum.gtInt (x : DecNum) (b : Int) : Bool :=
  decide (b * (10 : Int) ^ x.exp10 < x.num)

theorem DecNum.ltInt_iff (x : DecNum) (b : Int) :
    x.ltInt b = true ↔ x.toRat < (b : ℚ) := by
  have hpow : (0 : ℚ) < (10 : ℚ) ^ x.exp10 := by positivity
  unfold DecNum.ltInt DecNum.toRat
  rw [decide_eq_true_iff, div_lt_iff₀ hpow]
  constructor
  · intro h
    calc (x.num : ℚ) < ((b * (10 : Int) ^ x.exp10 : Int) : ℚ) := by exact_mod_cast h
      _ = (b : ℚ) * (10 : ℚ) ^ x.exp10 := by push_cast; ring
  · intro h
    have h2 : ((x.num : Int) : ℚ) < ((b * (10 : Int) ^ x.exp10 : Int) : ℚ) := by
      calc ((x.num : Int) : ℚ) < (b : ℚ) * (10 : ℚ) ^ x.exp10 := h
        _ = ((b * (10 : Int) ^ x.exp10 : Int) : ℚ) := by push_cast; ring
    exact_mod_cast h2

theorem DecNum.gtInt_iff (x : DecNum) (b : Int) :
    x.gtInt b = true ↔ (b : ℚ) < x.toRat := by
  have hpow : (0 : ℚ) < (10 : ℚ) ^ x.exp10 := by positivity
  unfold DecNum.gtInt DecNum.toRat
  rw [decide_eq_true_iff, lt_div_iff₀ hpow]
  constructor
  · intro h
    calc (b : ℚ) * (10 : ℚ) ^ x.exp10 = ((b * (10 : Int) ^ x.exp10 : Int) : ℚ) := by
          push_cast; ring
      _ < (x.num : ℚ) := by exact_mod_cast h
  · intro h
    have h2 : ((b * (10 : Int) ^ x.exp10 : Int) : ℚ) < ((x.num : Int) : ℚ) := by
      calc ((b * (10 : Int) ^ x.exp10 : Int) : ℚ) = (b : ℚ) * (10 : ℚ) ^ x.exp10 := by
            push_cast; ring
        _ < (x.num : ℚ) := h
    exact_mod_cast h2

/-- The digits-dot-digits magnitude accepted by `parseFloat` at the front
of the input; `none` when no digit is consumed (→ `NaN`). The value is
`intPart.fracPart = (ip·10^|fp| + fp) / 10^|fp|`. -/
def jsParseFloatMag (cs : List Char) : Option DecNum :=
  let ip := cs.takeWhile isDigit09
  let rest := cs.dropWhile isDigit09
  let fp := match rest with
    | '.' :: t => t.takeWhile isDigit09
    | _ => []
  if ip = [] ∧ fp = [] then none
  else some ⟨((digitsToNat ip * 10 ^ fp.length + digitsToNat fp : Nat) : Int), fp.length⟩

def jsParseFloatSigned : List Char → Option DecNum
  | '-' :: t => (jsParseFloatMag t).map (fun x => ⟨-x.num, x.exp10⟩)
  | '+' :: t => jsParseFloatMag t
  | t => jsParseFloatMag t

/-- `parseFloat`: skip leading whitespace, optional sign, then the longest
numeric prefix; trailing garbage is ignored; `none` models `NaN`. -/
def jsParseFloat (s : String) : Option DecNum :=
  jsParseFloatSigned (s.data.dropWhile jsIsWs)

def digitsPrefixVal (l : List Char) : Option Nat :=
  let ds := l.takeWhile isDigit09
  if ds = [] then none else some (digitsToNat ds)

def jsParseIntSigned : List Char → Option Int
  | '-' :: t => (digitsPrefixVal t).map (fun n => -(n : Int))
  | '+' :: t => (digitsPrefixVal t).map (fun n => (n : Int))
  | t => (digitsPrefixVal t).map (fun n => (n : Int))

/-- `parseInt` (base 10): skip leading whitespace, optional sign, then the
longest digit prefix; `none` models `NaN`. -/
def jsParseInt (s : String) : Option Int :=
  jsParseIntSigned (s.data.dropWhile jsIsWs)

def notAtWs (c : Char) : Bool := !(jsIsWs c) && !(c = '@')

/-- The email pattern `/^[^\s@]+@[^\s@]+\.[^\s@]+$/` (Student.js line 163
and the analogous lines of Employee.js / Instructor.js / Course.js).
Since `[^\s@]` excludes `@`, the pattern's `@` is the input's first `@`,
and the tail must contain a `.` that is neither its first nor its last
character. -/
def emailMatches (cs : List Char) : Bool :=
  let l := cs.takeWhile (fun c => !(c = '@'))
  match cs.dropWhile (fun c => !(c = '@')) with
  | [] => false
  | _ :: r =>
      decide (l ≠ []) && l.all notAtWs && decide (r ≠ []) && r.all notAtWs
        && (r.drop 1).dropLast.contains '.'

def emailTest (s : String) : Bool := emailMatches s.data

/-- The course-code pattern `/^[A-Z]{2,4}\d{3}$/` (part_000 line 184):
2-4 uppercase letters followed by exactly 3 digits. Letters and digits are
disjoint, so the greedy letter prefix is exact. -/
def codeMatches (cs : List Char) : Bool :=
  let ls := cs.takeWhile isUpperAZ
  let ds := cs.dropWhile isUpperAZ
  decide (2 ≤ ls.length) && decide (ls.length ≤ 4) && decide (ds.length = 3)
    && ds.all isDigit09

def codeTest (s : String) : Bool := codeMatches s.data

/-- `new Date(s)` on a date-only ISO string `YYYY-MM-DD`, encoded as the
integer `y*10000 + m*100 + d`. This encoding is order-isomorphic to the
epoch timeline on valid date-only strings, which is all the comparisons
in the validators need; `none` models an Invalid Date (`NaN` time value),
whose `<`/`>` comparisons are all false in JavaScript. -/
def jsParseDate (s : String) : Option Int :=
  match s.data with
  | [y1, y2, y3, y4, '-', m1, m2, '-', d1, d2] =>
      if isDigit09 y1 && isDigit09 y2 && isDigit09 y3 && isDigit09 y4
          && isDigit09 m1 && isDigit09 m2 && isDigit09 d1 && isDigit09 d2 then
        let y := digitsToNat [y1, y2, y3, y4]
        let m := digitsToNat [m1, m2]
        let d := digitsToNat [d1, d2]
        if 1 ≤ m ∧ m ≤ 12 ∧ 1 ≤ d ∧ d ≤ 31 then
          some ((y : Int) * 10000 + (m : Int) * 100 + (d : Int))
        else none
      else none
  | _ => none

/-- `new Date('2000-01-01')` in the same encoding (the validators' floor). -/
def minDateCode : Int := 20000101

/-! ## Validation pipeline

Each validator takes the raw field-value mapping a submitted form yields
(`Object.fromEntries(new FormData(...))`): every field a string. A missing
field (`undefined`) and the empty string travel identically through every
check used here (both falsy, and the guarded `trim` / `parseFloat` /
`parseInt` calls are only reached on truthy values), so fields are
modelled as `String` with `""` covering absence. Each rule appends its
message to `errors`; `result.isValid` is `errors.length === 0`. -/

structure ValidationResult where
  isValid : Bool
  errors : List String
deriving DecidableEq

/-- One `if (cond) errors.push(msg)` step. -/
def ruleError (c : Bool) (m : String) : List String := if c then [m] else []

theorem mem_ruleError (c : Bool) (m x : String) :
    x ∈ ruleError c m ↔ c = true ∧ x = m := by
  cases c <;> simp [ruleError]

structure StudentData where
  name : String
  email : String
  phone : String
  department : String
  gpa : String
  enrollmentDate : String
deriving DecidableEq

def msgStudentName : String := "Name must be at least 3 characters long"
def msgEmail : String := "Please enter a valid email address"
def msgPhone : String := "Please enter a valid phone number"
def msgGpa : String := "GPA must be between 0.0 and 4.0"
def msgDepartment : String := "Please select a department"
def msgEnrollmentDate : String := "Please enter enrollment date"

/-- `!data.name || data.name.trim().length < 3` (Student.js line 158,
Employee.js line 252). -/
def nameMin3Bad (name : String) : Bool :=
  decide (name = "") || decide ((jsTrim name).length < 3)

/-- `!data.email || !emailRegex.test(data.email)` (Student.js line 164). -/
def emailBad (email : String) : Bool :=
  decide (email = "") || !(emailTest email)

/-- `!data.phone || data.phone.trim().length < 10` (Student.js line 169). -/
def phoneBad (phone : String) : Bool :=
  decide (phone = "") || decide ((jsTrim phone).length < 10)

/-- `isNaN(gpa) || gpa < 0 || gpa > 4.0` for `gpa = parseFloat(data.gpa)`
(Student.js lines 174-175). -/
def gpaBad (gpa : String) : Bool :=
  match jsParseFloat gpa with
  | none => true
  | some g => g.ltInt 0 || g.gtInt 4

/-- `!data.department || data.department.trim() === ''` (Student.js line 180). -/
def departmentBad (department : String) : Bool :=
  decide (department = "") || decide (jsTrim department = "")

/-- `Student.validateStudent` (Student.js lines 154-193). -/
def validateStudent (d : StudentData) : ValidationResult :=
  let errors :=
    ruleError (nameMin3Bad d.name) msgStudentName
    ++ ruleError (emailBad d.email) msgEmail
    ++ ruleError (phoneBad d.phone) msgPhone
    ++ ruleError (gpaBad d.gpa) msgGpa
    ++ ruleError (departmentBad d.department) msgDepartment
    ++ ruleError (decide (d.enrollmentDate = "")) msgEnrollmentDate
  { isValid := errors.length == 0, errors := errors }

structure CourseData where
  code : String
  name : String
  credits : String
  department : String
  instructor : String
deriving DecidableEq

def msgCourseCode : String := "Course code must be in format: CS101, ENG201, BUS301, etc."
def msgCourseName : String := "Course name must be at least 5 characters long"
def msgCredits : String := "Credit hours must be between 1 and 6"
def msgInstructorName : String := "Instructor name must be at least 3 characters long"

/-- `!data.code || !codeRegex.test(data.code.toUpperCase())` (part_000
line 185). -/
def courseCodeBad (code : String) : Bool :=
  decide (code = "") || !(codeTest (jsToUpper code))

/-- `!data.name || data.name.trim().length < 5` (part_000 line 190). -/
def courseNameBad (name : String) : Bool :=
  decide (name = "") || decide ((jsTrim name).length < 5)

/-- `isNaN(credits) || credits < 1 || credits > 6` for
`credits = parseInt(data.credits)` (part_000 lines 195-196). -/
def creditsBad (credits : String) : Bool :=
  match jsParseInt credits with
  | none => true
  | some k => decide (k < 1) || decide (k > 6)

/-- `!data.instructor || data.instructor.trim().length < 3` (part_000
line 206). -/
def courseInstructorBad (instructor : String) : Bool :=
  decide (instructor = "") || decide ((jsTrim instructor).length < 3)

/-- `Course.validateCourse` (part_000 lines 180-214). -/
def validateCourse (d : CourseData) : ValidationResult :=
  let errors :=
    ruleError (courseCodeBad d.code) msgCourseCode
    ++ ruleError (courseNameBad d.name) msgCourseName
    ++ ruleError (creditsBad d.credits) msgCredits
    ++ ruleError (departmentBad d.department) msgDepartment
    ++ ruleError (courseInstructorBad d.instructor) msgInstructorName
  { isValid := errors.length == 0, errors := errors }

structure EmployeeData where
  name : String
  email : String
  phone : String
  position : String
  department : String
  hireDate : String
deriving DecidableEq

def msgPosition : String := "Please select a position"
def msgHireDate : String := "Please enter hire date"
def msgHireFuture : String := "Hire date cannot be in the future"
def msgHireOld : String := "Hire date seems too old (before 2000)"

/-- `hireDate > today` with `hireDate = new Date(data.hireDate)`; both
comparisons are false when the date is invalid (`NaN` time value). `now`
is the evaluation time in the same date encoding. -/
def hireFutureBad (now : Int) (hd : String) : Bool :=
  match jsParseDate hd with
  | none => false
  | some v => decide (v > now)

/-- `hireDate < minDate` with `minDate = new Date('2000-01-01')`. -/
def hireOldBad (hd : String) : Bool :=
  match jsParseDate hd with
  | none => false
  | some v => decide (v < minDateCode)

/-- The hire-date rule block shared by Employee.js lines 282-296 and
Instructor.js lines 235-249: a missing date gives the "enter hire date"
message; otherwise the future and too-old checks each push independently. -/
def hireDateErrors (now : Int) (hd : String) : List String :=
  if hd = "" then [msgHireDate]
  else ruleError (hireFutureBad now hd) msgHireFuture
    ++ ruleError (hireOldBad hd) msgHireOld

/-- `!data.position || data.position.trim() === ''` (Employee.js line 273). -/
def positionBad (position : String) : Bool :=
  decide (position = "") || decide (jsTrim position = "")

/-- `Employee.validateEmployee` (Employee.js lines 248-301). The
university-email check at lines 262-264 only logs a console warning and
appends nothing, so it contributes no rule. -/
def validateEmployee (now : Int) (d : EmployeeData) : ValidationResult :=
  let errors :=
    ruleError (nameMin3Bad d.name) msgStudentName
    ++ ruleError (emailBad d.email) msgEmail
    ++ ruleError (phoneBad d.phone) msgPhone
    ++ ruleError (positionBad d.position) msgPosition
    ++ ruleError (departmentBad d.department) msgDepartment
    ++ hireDateErrors now d.hireDate
  { isValid := errors.length == 0, errors := errors }

structure InstructorData where
  name : String
  email : String
  phone : String
  department : String
  specialization : String
  hireDate : String
deriving DecidableEq

def msgInstrName : String :=
  "Name must be at least 5 characters long (include title: Dr., Prof., etc.)"
def msgSpecialization : String := "Specialization must be at least 3 characters long"

/-- `!data.name || data.name.trim().length < 5` (Instructor.js line 205). -/
def instrNameBad (name : String) : Bool :=
  decide (name = "") || decide ((jsTrim name).length < 5)

/-- `!data.specialization || data.specialization.trim().length < 3`
(Instructor.js line 230). -/
def specializationBad (s : String) : Bool :=
  decide (s = "") || decide ((jsTrim s).length < 3)

/-- `Instructor.validateInstructor` (Instructor.js lines 201-254). -/
def validateInstructor (now : Int) (d : InstructorData) : ValidationResult :=
  let errors :=
    ruleError (instrNameBad d.name) msgInstrName
    ++ ruleError (emailBad d.email) msgEmail
    ++ ruleError (phoneBad d.phone) msgPhone
    ++ ruleError (departmentBad d.department) msgDepartment
    ++ ruleError (specializationBad d.specialization) msgSpecialization
    ++ hireDateErrors now d.hireDate
  { isValid := errors.length == 0, errors := errors }

/-! ## Claims about the validators -/

/-- Membership in the shared hire-date block: the "enter" message appears
exactly on a missing date, and the future / too-old messages exactly when
the date is present and the respective comparison fires. -/
theorem mem_hireDateErrors_iff (now : Int) (hd x : String) :
    x ∈ hireDateErrors now hd ↔
      (hd = "" ∧ x = msgHireDate)
      ∨ (hd ≠ "" ∧ hireFutureBad now hd = true ∧ x = msgHireFuture)
      ∨ (hd ≠ "" ∧ hireOldBad hd = true ∧ x = msgHireOld) := by
  unfold hireDateErrors
  split
  · simp_all
  · simp_all [List.mem_append, mem_ruleError]

/-- C7: for every raw field-value mapping, each of the four record kinds'
validators (Student, Course, Employee, Instructor) returns
`isValid = true` exactly when `errors` is empty, and `errors` holds the
message of each rule exactly when that rule is violated — every violation
is reported simultaneously, none is dropped by an earlier failure. For
Employee and Instructor the hire-date rules are: the "enter hire date"
message exactly on a missing date, and the future / too-old messages
exactly when the date is present and the comparison fires. -/
theorem validator_all_violations_c7 :
    (∀ d : StudentData,
      ((validateStudent d).isValid = true ↔ (validateStudent d).errors = [])
      ∧ (msgStudentName ∈ (validateStudent d).errors ↔ nameMin3Bad d.name = true)
      ∧ (msgEmail ∈ (validateStudent d).errors ↔ emailBad d.email = true)
      ∧ (msgPhone ∈ (validateStudent d).errors ↔ phoneBad d.phone = true)
      ∧ (msgGpa ∈ (validateStudent d).errors ↔ gpaBad d.gpa = true)
      ∧ (msgDepartment ∈ (validateStudent d).errors ↔ departmentBad d.department = true)
      ∧ (msgEnrollmentDate ∈ (validateStudent d).errors ↔ d.enrollmentDate = ""))
    ∧ (∀ d : CourseData,
      ((validateCourse d).isValid = true ↔ (validateCourse d).errors = [])
      ∧ (msgCourseCode ∈ (validateCourse d).errors ↔ courseCodeBad d.code = true)
      ∧ (msgCourseName ∈ (validateCourse d).errors ↔ courseNameBad d.name = true)
      ∧ (msgCredits ∈ (validateCourse d).errors ↔ creditsBad d.credits = true)
      ∧ (msgDepartment ∈ (validateCourse d).errors ↔ departmentBad d.department = true)
      ∧ (msgInstructorName ∈ (validateCourse d).errors ↔ courseInstructorBad d.instructor = true))
    ∧ (∀ (now : Int) (d : EmployeeData),
      ((validateEmployee now d).isValid = true ↔ (validateEmployee now d).errors = [])
      ∧ (msgStudentName ∈ (validateEmployee now d).errors ↔ nameMin3Bad d.name = true)
      ∧ (msgEmail ∈ (validateEmployee now d).errors ↔ emailBad d.email = true)
      ∧ (msgPhone ∈ (validateEmployee now d).errors ↔ phoneBad d.phone = true)
      ∧ (msgPosition ∈ (validateEmployee now d).errors ↔ positionBad d.position = true)
      ∧ (msgDepartment ∈ (validateEmployee now d).errors ↔ departmentBad d.department = true)
      ∧ (msgHireDate ∈ (validateEmployee now d).errors ↔ d.hireDate = "")
      ∧ (msgHireFuture ∈ (validateEmployee now d).errors ↔
          d.hireDate ≠ "" ∧ hireFutureBad now d.hireDate = true)
      ∧ (msgHireOld ∈ (validateEmployee now d).errors ↔
          d.hireDate ≠ "" ∧ hireOldBad d.hireDate = true))
    ∧ (∀ (now : Int) (d : InstructorData),
      ((validateInstructor now d).isValid = true ↔ (validateInstructor now d).errors = [])
      ∧ (msgInstrName ∈ (validateInstructor now d).errors ↔ instrNameBad d.name = true)
      ∧ (msgEmail ∈ (validateInstructor now d).errors ↔ emailBad d.email = true)
      ∧ (msgPhone ∈ (validateInstructor now d).errors ↔ phoneBad d.phone = true)
      ∧ (msgDepartment ∈ (validateInstructor now d).errors ↔ departmentBad d.department = true)
      ∧ (msgSpecialization ∈ (validateInstructor now d).errors ↔
          specializationBad d.specialization = true)
      ∧ (msgHireDate ∈ (validateInstructor now d).errors ↔ d.hireDate = "")
      ∧ (msgHireFuture ∈ (validateInstructor now d).errors ↔
          d.hireDate ≠ "" ∧ hireFutureBad now d.hireDate = true)
      ∧ (msgHireOld ∈ (validateInstructor now d).errors ↔
          d.hireDate ≠ "" ∧ hireOldBad d.hireDate = true)) := by
  refine ⟨?_, ?_, ?_, ?_⟩
  · intro d
    refine ⟨by simp [validateStudent, List.length_eq_zero], ?_, ?_, ?_, ?_, ?_, ?_⟩ <;>
      simp [validateStudent, List.mem_append, mem_ruleError,
        msgStudentName, msgEmail, msgPhone, msgGpa, msgDepartment, msgEnrollmentDate]
  · intro d
    refine ⟨by simp [validateCourse, List.length_eq_zero], ?_, ?_, ?_, ?_, ?_⟩ <;>
      simp [validateCourse, List.mem_append, mem_ruleError,
        msgCourseCode, msgCourseName, msgCredits, msgDepartment, msgInstructorName]
  · intro now d
    refine ⟨by simp [validateEmployee, List.length_eq_zero], ?_, ?_, ?_, ?_, ?_, ?_, ?_, ?_⟩ <;>
      simp [validateEmployee, List.mem_append, mem_ruleError, mem_hireDateErrors_iff,
        msgStudentName, msgEmail, msgPhone, msgPosition, msgDepartment,
        msgHireDate, msgHireFuture, msgHireOld]
  · intro now d
    refine ⟨by simp [validateInstructor, List.length_eq_zero], ?_, ?_, ?_, ?_, ?_, ?_, ?_, ?_⟩ <;>
      simp [validateInstructor, List.mem_append, mem_ruleError, mem_hireDateErrors_iff,
        msgInstrName, msgEmail, msgPhone, msgSpecialization, msgDepartment,
        msgHireDate, msgHireFuture, msgHireOld]

/-- C9: for Employee and Instructor inputs whose hire date is present and
parses to a valid date `v`: a date after the evaluation time `now` yields
the "cannot be in the future" violation, a date before the 2000-01-01
floor yields the "too old" violation, and a date inside `[2000-01-01, now]`
yields neither. -/
theorem hireDate_rules_c9 :
    (∀ (now v : Int) (d : EmployeeData),
      d.hireDate ≠ "" → jsParseDate d.hireDate = some v →
      (now < v → msgHireFuture ∈ (validateEmployee now d).errors)
      ∧ (v < minDateCode → msgHireOld ∈ (validateEmployee now d).errors)
      ∧ (minDateCode ≤ v → v ≤ now →
          msgHireFuture ∉ (validateEmployee now d).errors
          ∧ msgHireOld ∉ (validateEmployee now d).errors))
    ∧ (∀ (now v : Int) (d : InstructorData),
      d.hireDate ≠ "" → jsParseDate d.hireDate = some v →
      (now < v → msgHireFuture ∈ (validateInstructor now d).errors)
      ∧ (v < minDateCode → msgHireOld ∈ (validateInstructor now d).errors)
      ∧ (minDateCode ≤ v → v ≤ now →
          msgHireFuture ∉ (validateInstructor now d).errors
          ∧ msgHireOld ∉ (validateInstructor now d).errors)) := by
  constructor
  · intro now v d hne hp
    have hmemF : msgHireFuture ∈ (validateEmployee now d).errors ↔ now < v := by
      simp [validateEmployee, hireDateErrors, hne, List.mem_append, mem_ruleError,
        hireFutureBad, hireOldBad, hp, msgStudentName, msgEmail, msgPhone,
        msgPosition, msgDepartment, msgHireFuture, msgHireOld]
    have hmemO : msgHireOld ∈ (validateEmployee now d).errors ↔ v < minDateCode := by
      simp [validateEmployee, hireDateErrors, hne, List.mem_append, mem_ruleError,
        hireFutureBad, hireOldBad, hp, msgStudentName, msgEmail, msgPhone,
        msgPosition, msgDepartment, msgHireFuture, msgHireOld]
    refine ⟨fun h => hmemF.2 h, fun h => hmemO.2 h, fun h1 h2 => ⟨?_, ?_⟩⟩
    · intro hmem
      exact absurd (hmemF.1 hmem) (by omega)
    · intro hmem
      exact absurd (hmemO.1 hmem) (by omega)
  · intro now v d hne hp
    have hmemF : msgHireFuture ∈ (validateInstructor now d).errors ↔ now < v := by
      simp [validateInstructor, hireDateErrors, hne, List.mem_append, mem_ruleError,
        hireFutureBad, hireOldBad, hp, msgInstrName, msgEmail, msgPhone,
        msgSpecialization, msgDepartment, msgHireFuture, msgHireOld]
    have hmemO : msgHireOld ∈ (validateInstructor now d).errors ↔ v < minDateCode := by
      simp [validateInstructor, hireDateErrors, hne, List.mem_append, mem_ruleError,
        hireFutureBad, hireOldBad, hp, msgInstrName, msgEmail, msgPhone,
        msgSpecialization, msgDepartment, msgHireFuture, msgHireOld]
    refine ⟨fun h => hmemF.2 h, fun h => hmemO.2 h, fun h1 h2 => ⟨?_, ?_⟩⟩
    · intro hmem
      exact absurd (hmemF.1 hmem) (by omega)
    · intro hmem
      exact absurd (hmemO.1 hmem) (by omega)

/-- C9 witness: with evaluation time 2025-10-11, an employee hired
2030-05-10 gets the future violation, an instructor hired 1999-12-31 gets
the too-old violation, and an employee hired 2020-06-15 gets neither. -/
theorem hireDate_rules_c9_witness :
    msgHireFuture ∈ (validateEmployee 20251011
      ⟨"Bob Ray", "b@u.edu", "1234567890", "Clerk", "Arts", "2030-05-10"⟩).errors
    ∧ msgHireOld ∈ (validateInstructor 20251011
      ⟨"Dr. Ada Lovelace", "a@u.edu", "1234567890", "Science", "Logic", "1999-12-31"⟩).errors
    ∧ (msgHireFuture ∉ (validateEmployee 20251011
        ⟨"Bob Ray", "b@u.edu", "1234567890", "Clerk", "Arts", "2020-06-15"⟩).errors
       ∧ msgHireOld ∉ (validateEmployee 20251011
        ⟨"Bob Ray", "b@u.edu", "1234567890", "Clerk", "Arts", "2020-06-15"⟩).errors) :=
  ⟨(hireDate_rules_c9.1 20251011 20300510
      ⟨"Bob Ray", "b@u.edu", "1234567890", "Clerk", "Arts", "2030-05-10"⟩
      (by decide) (by decide)).1 (by decide),
   (hireDate_rules_c9.2 20251011 19991231
      ⟨"Dr. Ada Lovelace", "a@u.edu", "1234567890", "Science", "Logic", "1999-12-31"⟩
      (by decide) (by decide)).2.1 (by decide),
   (hireDate_rules_c9.1 20251011 20200615
      ⟨"Bob Ray", "b@u.edu", "1234567890", "Clerk", "Arts", "2020-06-15"⟩
      (by decide) (by decide)).2.2 (by decide) (by decide)⟩

/-! ## Modal workflow: delete and save

The async handlers are embedded as pure functions from the pre-state and
the server's response outcome to the post-state plus the ordered list of
requests issued on the way. `Bool` outcomes stand for `response.ok`; a
transport error takes the same `catch` path as a non-ok status, so
`false` covers both. -/

inductive StoreCall where
  | createReq
  | updateReq (id : String)
  | deleteReq (id : String)
  | lookupReq (code : String)
  | reload
deriving DecidableEq

def isWriteCall : StoreCall → Bool
  | .createReq => true
  | .updateReq _ => true
  | .deleteReq _ => true
  | _ => false

/-- The delete-modal fields of a `DataTable`: whether `deleteModal` has the
`active` class, and `recordToDelete` (DataTable.js lines 50-55). -/
structure DeleteModalState where
  modalActive : Bool
  recordToDelete : Option String
deriving DecidableEq

/-- `closeDeleteModal` (DataTable.js lines 406-409): removes the `active`
class and clears `recordToDelete`. -/
def closeDeleteModal : DeleteModalState := ⟨false, none⟩

structure DeleteOutcome where
  state : DeleteModalState
  calls : List StoreCall
  errorAlert : Bool
deriving DecidableEq

/-- `confirmDelete` (DataTable.js lines 375-392): bail out if no record is
pending; otherwise issue the DELETE; on ok close the modal and reload; on
failure alert — the `closeDeleteModal()` call sits inside the `try` before
the `catch`, so the modal state is untouched on failure. -/
def confirmDelete (st : DeleteModalState) (deleteOk : Bool) : DeleteOutcome :=
  match st.recordToDelete with
  | none => ⟨st, [], false⟩
  | some id =>
      if deleteOk then ⟨closeDeleteModal, [.deleteReq id, .reload], false⟩
      else ⟨st, [.deleteReq id], true⟩

/-- C2 counterexample: delete modal open on record `"7"`, delete fails.
The claim requires a transition to Closed (modal closed, `recordToDelete`
cleared); the code leaves the modal open with the record still pending. -/
theorem delete_failure_not_closed_cex :
    ¬ ((confirmDelete ⟨true, some "7"⟩ false).state = closeDeleteModal) := by
  decide

/-- C2 (amended): with a pending record, a successful delete closes the
delete modal, clears `recordToDelete` and issues exactly one reload after
the delete request; a failing delete shows an error and issues no reload,
but leaves the delete-modal state exactly as it was (no transition to
Closed). -/
theorem confirmDelete_c2 (st : DeleteModalState) (id : String) (ok : Bool)
    (hid : st.recordToDelete = some id) :
    (ok = true →
      (confirmDelete st ok).state = closeDeleteModal
      ∧ (confirmDelete st ok).calls = [.deleteReq id, .reload]
      ∧ (confirmDelete st ok).calls.count .reload = 1
      ∧ (confirmDelete st ok).errorAlert = false)
    ∧ (ok = false →
      (confirmDelete st ok).state = st
      ∧ (confirmDelete st ok).calls = [.deleteReq id]
      ∧ (confirmDelete st ok).calls.count .reload = 0
      ∧ (confirmDelete st ok).errorAlert = true) := by
  cases ok <;> simp [confirmDelete, hid]

/-- C2 witness: both outcomes at the concrete state with record `"7"`
pending. -/
theorem confirmDelete_c2_witness :
    ((confirmDelete ⟨true, some "7"⟩ true).state = closeDeleteModal
     ∧ (confirmDelete ⟨true, some "7"⟩ true).calls = [.deleteReq "7", .reload]
     ∧ (confirmDelete ⟨true, some "7"⟩ true).calls.count .reload = 1
     ∧ (confirmDelete ⟨true, some "7"⟩ true).errorAlert = false)
    ∧ ((confirmDelete ⟨true, some "7"⟩ false).state = (⟨true, some "7"⟩ : DeleteModalState)
     ∧ (confirmDelete ⟨true, some "7"⟩ false).calls = [.deleteReq "7"]
     ∧ (confirmDelete ⟨true, some "7"⟩ false).calls.count .reload = 0
     ∧ (confirmDelete ⟨true, some "7"⟩ false).errorAlert = true) :=
  ⟨(confirmDelete_c2 ⟨true, some "7"⟩ "7" true rfl).1 rfl,
   (confirmDelete_c2 ⟨true, some "7"⟩ "7" false rfl).2 rfl⟩

/-- The ambient form-modal fields after a save attempt, plus the requests
issued. `modalActive` is the post-state of the form modal, which is open
when `saveRecord` runs; `surfacedErrors` is the list joined into the
validation alert; `writtenGpa` is the `gpa` field of the JSON body of the
write request, if one was issued. -/
structure SaveOutcome where
  modalActive : Bool
  currentRecord : Option String
  calls : List StoreCall
  surfacedErrors : List String
  errorAlert : Bool
  writtenGpa : Option DecNum
deriving DecidableEq

/-- `Student.saveRecord` (Student.js lines 198-240): validate — on invalid
alert all errors and return with no request; on valid convert
`data.gpa = parseFloat(data.gpa)` and PUT (edit, `currentRecord` set) or
POST (add); non-ok throws to the alert `catch` with the modal left open;
ok runs `closeModal()` (modal closed, form reset, `currentRecord = null`)
then `loadData()`. -/
def studentSaveRecord (d : StudentData) (current : Option String) (writeOk : Bool) :
    SaveOutcome :=
  let v := validateStudent d
  if v.isValid then
    let g := jsParseFloat d.gpa
    let writeCall := match current with
      | some id => StoreCall.updateReq id
      | none => StoreCall.createReq
    if writeOk then ⟨false, none, [writeCall, .reload], [], false, g⟩
    else ⟨true, current, [writeCall], [], true, g⟩
  else ⟨true, current, [], v.errors, false, none⟩

/-- C6: saving from the add modal (`currentRecord = null`): if validation
fails, no store call of any kind is issued and the modal stays open with
every validation error surfaced; if validation succeeds and the create
succeeds, exactly one create and exactly one reload are issued, the modal
closes and `currentRecord` is cleared. -/
theorem student_save_add_c6 (d : StudentData) (ok : Bool) :
    ((validateStudent d).isValid = false →
      (studentSaveRecord d none ok).calls = []
      ∧ (studentSaveRecord d none ok).modalActive = true
      ∧ (studentSaveRecord d none ok).surfacedErrors = (validateStudent d).errors)
    ∧ ((validateStudent d).isValid = true → ok = true →
      (studentSaveRecord d none ok).calls = [.createReq, .reload]
      ∧ (studentSaveRecord d none ok).calls.count .createReq = 1
      ∧ (studentSaveRecord d none ok).calls.count .reload = 1
      ∧ (studentSaveRecord d none ok).modalActive = false
      ∧ (studentSaveRecord d none ok).currentRecord = none) := by
  constructor
  · intro hv
    simp [studentSaveRecord, hv]
  · intro hv hok
    subst hok
    simp [studentSaveRecord, hv]

/-- C6 witness: the all-empty form is invalid and issues nothing; a fully
valid student issues exactly one create and one reload and closes. -/
theorem student_save_add_c6_witness :
    ((studentSaveRecord ⟨"", "", "", "", "", ""⟩ none true).calls = []
     ∧ (studentSaveRecord ⟨"", "", "", "", "", ""⟩ none true).modalActive = true
     ∧ (studentSaveRecord ⟨"", "", "", "", "", ""⟩ none true).surfacedErrors
         = (validateStudent ⟨"", "", "", "", "", ""⟩).errors)
    ∧ ((studentSaveRecord ⟨"Ann Lee", "a@b.edu", "1234567890", "Science", "3.7", "2023-01-01"⟩
          none true).calls = [.createReq, .reload]
     ∧ (studentSaveRecord ⟨"Ann Lee", "a@b.edu", "1234567890", "Science", "3.7", "2023-01-01"⟩
          none true).calls.count .createReq = 1
     ∧ (studentSaveRecord ⟨"Ann Lee", "a@b.edu", "1234567890", "Science", "3.7", "2023-01-01"⟩
          none true).calls.count .reload = 1
     ∧ (studentSaveRecord ⟨"Ann Lee", "a@b.edu", "1234567890", "Science", "3.7", "2023-01-01"⟩
          none true).modalActive = false
     ∧ (studentSaveRecord ⟨"Ann Lee", "a@b.edu", "1234567890", "Science", "3.7", "2023-01-01"⟩
          none true).currentRecord = none) :=
  ⟨(student_save_add_c6 ⟨"", "", "", "", "", ""⟩ true).1 (by decide),
   (student_save_add_c6
      ⟨"Ann Lee", "a@b.edu", "1234567890", "Science", "3.7", "2023-01-01"⟩ true).2
      (by decide) rfl⟩

/-- The C10 input: every field valid except that `gpa` is the non-numeral
string `"3.5abc"`. -/
def gpaPrefixExample : StudentData :=
  ⟨"Ann Lee", "a@b.edu", "1234567890", "Science", "3.5abc", "2023-01-01"⟩

/-- C10: the Student validator reports no GPA violation for
`gpa = "3.5abc"` — `parseFloat` reads the numeric prefix `3.5`, which is in
range — the whole record validates, and the subsequent save writes the
parsed prefix `35/10 = 3.5` as the stored `gpa`. -/
theorem gpa_prefix_write_c10 :
    (validateStudent gpaPrefixExample).isValid = true
    ∧ msgGpa ∉ (validateStudent gpaPrefixExample).errors
    ∧ (studentSaveRecord gpaPrefixExample none true).writtenGpa = some ⟨35, 1⟩
    ∧ (DecNum.mk 35 1).toRat = 7 / 2 := by
  refine ⟨by decide, by decide, by decide, ?_⟩
  unfold DecNum.toRat
  norm_num

/-! ## Course save path and the course-code pattern -/

theorem isDigit09_not_upper (c : Char) (h : isDigit09 c = true) : isUpperAZ c = false := by
  simp only [isDigit09, isUpperAZ, decide_eq_true_iff, decide_eq_false_iff_not] at *
  intro hcon
  have h3 : ('9' : Char) < 'A' := by decide
  exact absurd (lt_of_le_of_lt h.2 h3) (not_lt.mpr hcon.1)

theorem takeWhile_append_cons {α : Type} (p : α → Bool) (ls : List α) (a : α) (t : List α)
    (h1 : ∀ c ∈ ls, p c = true) (h2 : p a = false) :
    (ls ++ a :: t).takeWhile p = ls := by
  induction ls with
  | nil => simp [List.takeWhile_cons, h2]
  | cons x xs ih =>
      have hx : p x = true := h1 x (by simp)
      simp [List.takeWhile_cons, hx]
      exact ih (fun c hc => h1 c (by simp [hc]))

theorem dropWhile_append_cons {α : Type} (p : α → Bool) (ls : List α) (a : α) (t : List α)
    (h1 : ∀ c ∈ ls, p c = true) (h2 : p a = false) :
    (ls ++ a :: t).dropWhile p = a :: t := by
  induction ls with
  | nil => simp [List.dropWhile_cons, h2]
  | cons x xs ih =>
      have hx : p x = true := h1 x (by simp)
      simp [List.dropWhile_cons, hx]
      exact ih (fun c hc => h1 c (by simp [hc]))

/-- The matcher `codeMatches` recognizes exactly the language of
`^[A-Z]{2,4}\d{3}$`: a block of 2-4 uppercase letters followed by a block
of exactly 3 digits. -/
theorem codeMatches_iff (cs : List Char) :
    codeMatches cs = true ↔
      ∃ ls ds, cs = ls ++ ds ∧ 2 ≤ ls.length ∧ ls.length ≤ 4
        ∧ (∀ c ∈ ls, isUpperAZ c = true) ∧ ds.length = 3
        ∧ (∀ c ∈ ds, isDigit09 c = true) := by
  constructor
  · intro h
    simp only [codeMatches, Bool.and_eq_true, decide_eq_true_iff, List.all_eq_true] at h
    refine ⟨cs.takeWhile isUpperAZ, cs.dropWhile isUpperAZ,
      (List.takeWhile_append_dropWhile _ _).symm, h.1.1.1, h.1.1.2, ?_, h.1.2, h.2⟩
    intro c hc
    exact List.mem_takeWhile_imp hc
  · rintro ⟨ls, ds, rfl, h2, h4, hup, hlen3, hdig⟩
    cases ds with
    | nil => simp at hlen3
    | cons a t =>
        have ha : isUpperAZ a = false := isDigit09_not_upper a (hdig a (by simp))
        simp only [codeMatches, Bool.and_eq_true, decide_eq_true_iff, List.all_eq_true,
          takeWhile_append_cons isUpperAZ ls a t hup ha,
          dropWhile_append_cons isUpperAZ ls a t hup ha]
        exact ⟨⟨⟨h2, h4⟩, hlen3⟩, hdig⟩

/-- The post-state and issued requests of `Course.saveRecord`.
`codeExistsAlert` is the `already exists!` alert; `writtenCode` /
`writtenCredits` are the normalized `code` and `credits` fields of the
JSON body of the write request, if one was issued. -/
structure CourseSaveOutcome where
  modalActive : Bool
  currentRecord : Option String
  calls : List StoreCall
  surfacedErrors : List String
  codeExistsAlert : Bool
  errorAlert : Bool
  writtenCode : Option String
  writtenCredits : Option Int
deriving DecidableEq

/-- `Course.saveRecord` (part_000 lines 219-273): validate — on invalid
alert and return; uppercase the code and parse the credits; on the create
path only (`currentRecord` null), `getCourseByCode` — if a course with
that code exists, alert and return with no write; then PUT (edit) or POST
(create); non-ok alerts with the modal open; ok closes and reloads.
`existing` is the server's reply to the uniqueness lookup (the id of a
course with that code, if any) and is only consulted on the create path. -/
def courseSaveRecord (d : CourseData) (current : Option String) (existing : Option String)
    (writeOk : Bool) : CourseSaveOutcome :=
  let v := validateCourse d
  if v.isValid then
    let code := jsToUpper d.code
    let credits := jsParseInt d.credits
    match current with
    | none =>
        match existing with
        | some _ => ⟨true, none, [.lookupReq code], [], true, false, none, none⟩
        | none =>
            if writeOk then
              ⟨false, none, [.lookupReq code, .createReq, .reload], [], false, false,
                some code, credits⟩
            else
              ⟨true, none, [.lookupReq code, .createReq], [], false, true,
                some code, credits⟩
    | some id =>
        if writeOk then
          ⟨false, none, [.updateReq id, .reload], [], false, false, some code, credits⟩
        else
          ⟨true, current, [.updateReq id], [], false, true, some code, credits⟩
  else ⟨true, current, [], v.errors, false, false, none, none⟩

/-- The concrete course of the claim's example. -/
def courseCodeExample : CourseData :=
  ⟨"cs101", "Intro to Systems", "3", "Engineering", "Dr. Lee"⟩

theorem msgCourseCode_mem_iff (d : CourseData) :
    msgCourseCode ∈ (validateCourse d).errors ↔ courseCodeBad d.code = true := by
  simp [validateCourse, List.mem_append, mem_ruleError,
    msgCourseCode, msgCourseName, msgCredits, msgDepartment, msgInstructorName]

/-- C8: (1) the code field passes validation exactly when the upper-cased
code matches `^[A-Z]{2,4}\d{3}$` — `codeMatches_iff` gives that pattern's
meaning; (2) `"cs101"` validates and the write carries the normalized
`"CS101"`; (3) on the create path, when the uniqueness lookup finds an
existing course with that code the save aborts: no write of any kind and
no reload is ever issued; (4) the edit path performs no uniqueness
lookup. -/
theorem course_code_unique_c8 :
    (∀ d : CourseData,
      msgCourseCode ∉ (validateCourse d).errors ↔ codeTest (jsToUpper d.code) = true)
    ∧ (∀ s : String, codeTest s = true ↔
        ∃ ls ds, s.data = ls ++ ds ∧ 2 ≤ ls.length ∧ ls.length ≤ 4
          ∧ (∀ c ∈ ls, isUpperAZ c = true) ∧ ds.length = 3
          ∧ (∀ c ∈ ds, isDigit09 c = true))
    ∧ ((validateCourse courseCodeExample).isValid = true
       ∧ (courseSaveRecord courseCodeExample none none true).writtenCode = some "CS101")
    ∧ (∀ (d : CourseData) (ex : String) (ok : Bool),
        (courseSaveRecord d none (some ex) ok).calls.filter isWriteCall = []
        ∧ StoreCall.reload ∉ (courseSaveRecord d none (some ex) ok).calls)
    ∧ (∀ (d : CourseData) (i : String) (exo : Option String) (ok : Bool) (cd : String),
        StoreCall.lookupReq cd ∉ (courseSaveRecord d (some i) exo ok).calls) := by
  refine ⟨?_, fun s => codeMatches_iff s.data, ⟨by decide, by decide⟩, ?_, ?_⟩
  · intro d
    by_cases hc : d.code = ""
    · constructor
      · intro hmem
        exact absurd ((msgCourseCode_mem_iff d).not.1 hmem) (by rw [hc]; decide)
      · intro ht
        rw [hc] at ht
        exact absurd ht (by decide)
    · rw [(msgCourseCode_mem_iff d).not]
      simp [courseCodeBad, hc, codeTest]
  · intro d ex ok
    by_cases hv : (validateCourse d).isValid = true <;>
      simp [courseSaveRecord, hv, isWriteCall]
  · intro d i exo ok cd
    by_cases hv : (validateCourse d).isValid = true <;>
      cases ok <;> simp [courseSaveRecord, hv]

end SAS
